import Mathlib

/-!
Verification development for the AmarBin backend authentication subsystem.

This file gives a shallow embedding of the authentication logic of the
repository (src/middleware/auth.js, src/models/User.js, src/routes/auth.js)
and proves the behavioural properties stated about it.

Modelling conventions:
- Time is a natural number of milliseconds (JavaScript Date.now()).  JWT
  claims iat and exp are in seconds; the embedding divides by 1000 with
  natural (floor) division, exactly as the jsonwebtoken library does.
- jwt.sign for the HS256 algorithm is deterministic: a token is fully
  determined by its payload fields and the signing secret, so a signed
  token is modelled as the pair (payload, secret).
- bcrypt hashing is modelled by an injective tagging function; the only
  property the code relies on is that comparePassword succeeds exactly on
  the password whose hash is stored.
- The Mongo document store is a list of user records; save replaces the
  record with the same id.  Redis is a list of (key, expiry) entries with
  a readiness flag.
- Request-metadata fields that never influence control flow (userAgent,
  ipAddress, createdAt timestamps inside stored refresh tokens, the
  timestamp/ip/agent fields of login-history entries) are elided; the
  login history keeps only the success flag, which is what the code
  appends and truncates.
-/

namespace AmarBin

/-- Payload of a signed JWT as produced by src/middleware/auth.js:
id is the user id claim, typ the type claim (access or refresh),
iat and exp are in seconds. -/
structure JwtPayload where
  id : Nat
  typ : String
  iat : Nat
  exp : Nat
deriving DecidableEq

/-- Deterministic model of an HS256 JWT: payload plus signing secret. -/
structure Jwt where
  payload : JwtPayload
  secret : String
deriving DecidableEq

/-- Type claim of access tokens. -/
def accessType : String := "access"

/-- Type claim of refresh tokens. -/
def refreshType : String := "refresh"

/-- Model of jwt.sign at time nowMs with lifetime expiresInSec seconds:
iat is the floor of the current time in seconds, exp is iat plus the
lifetime. -/
def jwtSign (id : Nat) (typ : String) (secret : String) (nowMs expiresInSec : Nat) : Jwt :=
  ⟨⟨id, typ, nowMs / 1000, nowMs / 1000 + expiresInSec⟩, secret⟩

/-- Failure modes of jwt.verify distinguished by the middleware. -/
inductive JwtError where
  | invalid
  | expired
deriving DecidableEq

/-- Model of jwt.verify at time nowMs: wrong secret gives JsonWebTokenError,
a token whose exp is not in the future gives TokenExpiredError
(the library rejects when the clock in seconds has reached exp). -/
def jwtVerify (t : Jwt) (secret : String) (nowMs : Nat) : Except JwtError JwtPayload :=
  if t.secret = secret then
    if t.payload.exp ≤ nowMs / 1000 then .error .expired
    else .ok t.payload
  else .error .invalid

/-- Environment-derived configuration with the defaults of the source:
JWT_EXPIRE 15m = 900 s, JWT_REFRESH_EXPIRE 7d = 604800 s,
MAX_LOGIN_ATTEMPTS 5, LOCKOUT_TIME 15 minutes. -/
structure Config where
  jwtSecret : String
  jwtRefreshSecret : String
  jwtExpire : Nat
  jwtRefreshExpire : Nat
  maxLoginAttempts : Nat
  lockoutTime : Nat
deriving DecidableEq

/-- Configuration holding every default of the source. -/
def defaultConfig : Config :=
  { jwtSecret := "sA"
    jwtRefreshSecret := "sR"
    jwtExpire := 900
    jwtRefreshExpire := 604800
    maxLoginAttempts := 5
    lockoutTime := 15 }

/-- AuthMiddleware.generateTokens: an access token signed with JWT_SECRET
and a refresh token signed with JWT_REFRESH_SECRET, minted at nowMs. -/
def generateTokens (cfg : Config) (userId : Nat) (nowMs : Nat) : Jwt × Jwt :=
  (jwtSign userId accessType cfg.jwtSecret nowMs cfg.jwtExpire,
   jwtSign userId refreshType cfg.jwtRefreshSecret nowMs cfg.jwtRefreshExpire)

/-- Entry of the refreshTokens array of the User schema (token value and
expiry; audit-only metadata elided). -/
structure StoredRefreshToken where
  token : Jwt
  expiresAt : Nat
deriving DecidableEq

/-- Model of the bcrypt hash stored by the pre-save hook; injective tagging
suffices since only comparePassword consumes it. -/
def bcryptHash (pw : String) : String := "bcrypt$" ++ pw

/-- User document (src/models/User.js), restricted to the fields the
authentication logic reads or writes. -/
structure User where
  id : Nat
  email : String
  passwordHash : String
  isActive : Bool
  loginAttempts : Nat
  isLocked : Bool
  lockUntil : Option Nat
  passwordChangedAt : Option Nat
  refreshTokens : List StoredRefreshToken
  loginHistory : List Bool
  lastLogin : Option Nat
deriving DecidableEq

/-- UserSchema.methods.comparePassword via the bcrypt model. -/
def comparePassword (candidate : String) (u : User) : Bool :=
  bcryptHash candidate = u.passwordHash

/-- Virtual isAccountLocked of the User schema, also the inline lock test of
the authenticate middleware: locked flag set and lockUntil strictly in the
future (an absent lockUntil compares false in the source). -/
def isAccountLocked (nowMs : Nat) (u : User) : Bool :=
  u.isLocked && (match u.lockUntil with
    | some l => decide (nowMs < l)
    | none => false)

/-- UserSchema.methods.handleFailedLogin: increment loginAttempts, and once
they reach maxLoginAttempts set isLocked and lockUntil to now plus
lockoutTime minutes. -/
def handleFailedLogin (cfg : Config) (nowMs : Nat) (u : User) : User :=
  let u1 := { u with loginAttempts := u.loginAttempts + 1 }
  if cfg.maxLoginAttempts ≤ u1.loginAttempts then
    { u1 with isLocked := true, lockUntil := some (nowMs + cfg.lockoutTime * 60 * 1000) }
  else u1

/-- UserSchema.methods.handleSuccessfulLogin: reset the counter, clear the
lock, stamp lastLogin, prepend a successful history entry and keep at most
the latest 10 entries. -/
def handleSuccessfulLogin (nowMs : Nat) (u : User) : User :=
  let hist := true :: u.loginHistory
  { u with loginAttempts := 0
           isLocked := false
           lockUntil := none
           lastLogin := some nowMs
           loginHistory := if 10 < hist.length then hist.take 10 else hist }

/-- UserSchema.statics.findByEmailForAuth: first user with the given email
whose isActive flag is set (emails are stored lowercased by the schema). -/
def findByEmailForAuth (db : List User) (email : String) : Option User :=
  db.find? (fun u => decide (u.email = email) && u.isActive)

/-- User.findById over the document-store model (no isActive filter). -/
def findById (db : List User) (id : Nat) : Option User :=
  db.find? (fun u => decide (u.id = id))

/-- Mongoose save: replace the record with the same id, leaving the rest of
the store unchanged. -/
def saveUser (db : List User) (u : User) : List User :=
  db.map (fun v => if v.id = u.id then u else v)

/-- Redis model: readiness flag plus blacklist entries (token, expiry in
milliseconds derived from the TTL at insertion). -/
structure Cache where
  ready : Bool
  entries : List (Jwt × Nat)
deriving DecidableEq

/-- Redis SET with a TTL in seconds: the new entry shadows any previous
entry for the same key. -/
def cacheSet (c : Cache) (t : Jwt) (ttlSec nowMs : Nat) : Cache :=
  { c with entries := (t, nowMs + ttlSec * 1000) :: c.entries.filter (fun e => !decide (e.1 = t)) }

/-- Redis EXISTS at time nowMs: some unexpired entry for the key. -/
def cacheExists (c : Cache) (t : Jwt) (nowMs : Nat) : Bool :=
  c.entries.any (fun e => decide (e.1 = t) && decide (nowMs < e.2))

/-- AuthMiddleware.isTokenBlacklisted: false when Redis is not ready
(degrade to treating the token as valid), otherwise EXISTS. -/
def isTokenBlacklisted (c : Cache) (t : Jwt) (nowMs : Nat) : Bool :=
  if c.ready then cacheExists c t nowMs else false

/-- AuthMiddleware.blacklistToken with its default TTL parameter of 86400
seconds: a no-op returning false when Redis is not ready, otherwise SET
with the given TTL. -/
def blacklistToken (c : Cache) (t : Jwt) (nowMs : Nat) (expiresIn : Nat) : Cache × Bool :=
  if c.ready then (cacheSet c t expiresIn nowMs, true) else (c, false)

/-- Default value of the expiresIn parameter of blacklistToken; both call
sites of the source (logout and change-password) omit the argument. -/
def blacklistDefaultTtl : Nat := 86400

/-- Outcome of the authenticate middleware, one constructor per response
path of src/middleware/auth.js. -/
inductive AuthResult where
  | success (userId : Nat)
  | noToken
  | revoked
  | invalidToken
  | tokenExpired
  | userNotFound
  | locked (lockUntil : Nat)
  | stale
deriving DecidableEq

/-- HTTP status each authenticate outcome is answered with in the source. -/
def AuthResult.status : AuthResult → Nat
  | .success _ => 200
  | .noToken => 401
  | .revoked => 401
  | .invalidToken => 401
  | .tokenExpired => 401
  | .userNotFound => 401
  | .locked _ => 423
  | .stale => 401

/-- Staleness test of the authenticate middleware: payload.iat (seconds)
strictly before passwordChangedAt (milliseconds); the source compares
iat with getTime()/1000, which for an integer iat is exactly
iat * 1000 < passwordChangedAt. -/
def staleCheck (iat : Nat) (u : User) : Bool :=
  match u.passwordChangedAt with
  | some ch => decide (iat * 1000 < ch)
  | none => false

/-- AuthMiddleware.authenticate: bearer-token presence, blacklist lookup,
jwt.verify with JWT_SECRET, user lookup, lock check, staleness check, in
the order of the source. -/
def authenticate (cfg : Config) (db : List User) (c : Cache) (tok : Option Jwt) (nowMs : Nat) : AuthResult :=
  match tok with
  | none => .noToken
  | some t =>
    if isTokenBlacklisted c t nowMs then .revoked
    else
      match jwtVerify t cfg.jwtSecret nowMs with
      | .error .invalid => .invalidToken
      | .error .expired => .tokenExpired
      | .ok payload =>
        match findById db payload.id with
        | none => .userNotFound
        | some user =>
          if isAccountLocked nowMs user then .locked (user.lockUntil.getD 0)
          else if staleCheck payload.iat user then .stale
          else .success payload.id

/-- Outcome of the login route (src/routes/auth.js): either an AppError with
its HTTP status and message, or success carrying the authenticated user id
and the freshly minted token pair. -/
inductive LoginResult where
  | err (status : Nat) (message : String)
  | ok (userId : Nat) (accessToken refreshToken : Jwt)
deriving DecidableEq

/-- Message of the enumeration-safe AppError thrown both when no account
matches the email and when the password is wrong. -/
def invalidCredentialsMsg : String := "Invalid email or password"

/-- Message of the 423 AppError thrown for a locked account. -/
def accountLockedMsg : String := "Account is temporarily locked due to too many failed login attempts"

/-- Failed-login path of the login route: handleFailedLogin, then a failed
entry prepended to the login history, then save (the two consecutive saves
of the same document collapse to saving the final state). -/
def loginFailedUpdate (cfg : Config) (nowMs : Nat) (u : User) : User :=
  let u1 := handleFailedLogin cfg nowMs u
  { u1 with loginHistory := false :: u1.loginHistory }

/-- Successful-login path of the login route after handleSuccessfulLogin:
push the new refresh token with a 30-day expiry under rememberMe and 7 days
otherwise, then keep only the last 5 stored refresh tokens. -/
def loginSuccessUpdate (nowMs : Nat) (rememberMe : Bool) (u : User) (rt : Jwt) : User :=
  let days := if rememberMe then 30 else 7
  let u1 := handleSuccessfulLogin nowMs u
  let u2 := { u1 with refreshTokens := u1.refreshTokens ++ [⟨rt, nowMs + days * 24 * 60 * 60 * 1000⟩] }
  if 5 < u2.refreshTokens.length then
    { u2 with refreshTokens := u2.refreshTokens.drop (u2.refreshTokens.length - 5) }
  else u2

/-- POST /auth/login handler: account lookup (enumeration-safe failure),
lock check before any password comparison, password comparison with
failure recording, then success handling, token minting and refresh-token
storage.  Returns the response and the resulting document store. -/
def login (cfg : Config) (db : List User) (email password : String) (rememberMe : Bool) (nowMs : Nat) : LoginResult × List User :=
  match findByEmailForAuth db email with
  | none => (.err 401 invalidCredentialsMsg, db)
  | some user =>
    if isAccountLocked nowMs user then
      (.err 423 accountLockedMsg, db)
    else if comparePassword password user then
      let tokens := generateTokens cfg user.id nowMs
      (.ok user.id tokens.1 tokens.2, saveUser db (loginSuccessUpdate nowMs rememberMe user tokens.2))
    else
      (.err 401 invalidCredentialsMsg, saveUser db (loginFailedUpdate cfg nowMs user))

/-- AuthMiddleware.verifyRefreshToken: jwt.verify with JWT_REFRESH_SECRET,
type-claim check, then findById; every failure collapses to the single
thrown error, modelled as none. -/
def verifyRefreshToken (cfg : Config) (db : List User) (t : Jwt) (nowMs : Nat) : Option User :=
  match jwtVerify t cfg.jwtRefreshSecret nowMs with
  | .error _ => none
  | .ok payload =>
    if payload.typ = refreshType then findById db payload.id
    else none

/-- In-place update of the first stored entry holding the presented token,
as the route mutates the found subdocument. -/
def updateStoredToken (l : List StoredRefreshToken) (t newTok : Jwt) (newExp : Nat) : List StoredRefreshToken :=
  match l with
  | [] => []
  | s :: rest =>
    if s.token = t then { s with token := newTok, expiresAt := newExp } :: rest
    else s :: updateStoredToken rest t newTok newExp

/-- Outcome of the refresh route, one constructor per exit path. -/
inductive RefreshResult where
  | missingToken
  | invalidRefresh
  | notStored
  | ok (accessToken refreshToken : Jwt)
deriving DecidableEq

/-- Boolean success test for a refresh outcome. -/
def RefreshResult.isOk : RefreshResult → Bool
  | .ok _ _ => true
  | _ => false

/-- POST /auth/refresh handler: verify the refresh token, require an
unexpired matching entry in the user's stored set, mint a fresh pair and
replace the stored record in place with the new refresh token and a 7-day
expiry. -/
def refresh (cfg : Config) (db : List User) (rt : Option Jwt) (nowMs : Nat) : RefreshResult × List User :=
  match rt with
  | none => (.missingToken, db)
  | some t =>
    match verifyRefreshToken cfg db t nowMs with
    | none => (.invalidRefresh, db)
    | some user =>
      match user.refreshTokens.find? (fun s => decide (s.token = t)) with
      | none => (.notStored, db)
      | some stored =>
        if stored.expiresAt < nowMs then (.notStored, db)
        else
          let tokens := generateTokens cfg user.id nowMs
          let user1 := { user with refreshTokens := updateStoredToken user.refreshTokens t tokens.2 (nowMs + 7 * 24 * 60 * 60 * 1000) }
          (.ok tokens.1 tokens.2, saveUser db user1)

/-- POST /auth/logout handler body (runs after authenticate, which supplies
the user and the bearer token): blacklist the access token with the
default TTL (the route passes no TTL), then drop either the whole stored
set or the one presented refresh token, and save. -/
def logout (c : Cache) (db : List User) (u : User) (tok : Jwt) (refreshToken : Option Jwt) (logoutAll : Bool) (nowMs : Nat) : Cache × List User :=
  let c1 := (blacklistToken c tok nowMs blacklistDefaultTtl).1
  let u1 :=
    if logoutAll then { u with refreshTokens := [] }
    else
      match refreshToken with
      | some rt => { u with refreshTokens := u.refreshTokens.filter (fun s => !decide (s.token = rt)) }
      | none => u
  (c1, saveUser db u1)

/-- Outcome of the change-password route. -/
inductive ChangePasswordResult where
  | wrongCurrent
  | ok
deriving DecidableEq

/-- Mutation applied to the user document by the change-password route:
the new hash is stored (via the pre-save hook), passwordChangedAt is set
to now, and the whole refresh-token set is cleared. -/
def changePasswordUpdate (u : User) (newPw : String) (nowMs : Nat) : User :=
  { u with passwordHash := bcryptHash newPw
           passwordChangedAt := some nowMs
           refreshTokens := [] }

/-- PATCH /auth/change-password handler body (after authenticate): verify
the current password, apply changePasswordUpdate, save, and blacklist the
current access token with the default TTL. -/
def changePassword (db : List User) (c : Cache) (u : User) (tok : Jwt) (currentPw newPw : String) (nowMs : Nat) : ChangePasswordResult × List User × Cache :=
  if comparePassword currentPw u then
    let db1 := saveUser db (changePasswordUpdate u newPw nowMs)
    let c1 := (blacklistToken c tok nowMs blacklistDefaultTtl).1
    (.ok, db1, c1)
  else (.wrongCurrent, db, c)

/-- User state produced by a refresh that rotates the stored entry s
(sitting between pre and post) in place at time nowMs: the entry receives
the freshly minted refresh token and a 7-day expiry. -/
def rotatedUser (cfg : Config) (u : User) (pre post : List StoredRefreshToken) (s : StoredRefreshToken) (nowMs : Nat) : User :=
  { u with refreshTokens :=
      pre ++ { s with token := (generateTokens cfg u.id nowMs).2,
                      expiresAt := nowMs + 7 * 24 * 60 * 60 * 1000 } :: post }

/-! Concrete data used to evaluate the development on closed inputs. -/

/-- Sample correct password. -/
def pwGood : String := "pw"

/-- Sample wrong password. -/
def pwBad : String := "bad"

/-- Sample replacement password. -/
def pwNew : String := "newpw"

/-- Sample account email. -/
def emailW : String := "a@x.com"

/-- Freshly registered sample account. -/
def baseUser : User :=
  { id := 1
    email := emailW
    passwordHash := bcryptHash pwGood
    isActive := true
    loginAttempts := 0
    isLocked := false
    lockUntil := none
    passwordChangedAt := none
    refreshTokens := []
    loginHistory := []
    lastLogin := none }

/-- Sample account one failed attempt short of the default lockout bound. -/
def userAtMax4 : User := { baseUser with loginAttempts := 4 }

/-- Sample account in the state produced by the locking failure at time 0
with the default configuration. -/
def lockedUser : User :=
  { baseUser with loginAttempts := 5, isLocked := true, lockUntil := some 900000,
                  loginHistory := [false] }

/-- Sample account whose lock window has already elapsed while the flag and
counter still hold stale values. -/
def staleLockUser : User :=
  { baseUser with loginAttempts := 7, isLocked := true, lockUntil := some 5 }

/-- Sample account that changed its password at 5000 ms. -/
def pwChangedUser : User := { baseUser with passwordChangedAt := some 5000 }

/-- Refresh token minted by the server for account 1 at 500 ms. -/
def rt0 : Jwt := (generateTokens defaultConfig 1 500).2

/-- Sample account holding rt0 in its stored refresh-token set. -/
def userRt : User := { baseUser with refreshTokens := [⟨rt0, 604800000⟩] }

/-- Sample account that is both locked (until far in the future) and
deactivated, still holding rt0. -/
def lockedInactiveUser : User :=
  { baseUser with isActive := false, isLocked := true, lockUntil := some 999999999,
                  refreshTokens := [⟨rt0, 604800000⟩] }

/-- Available Redis instance with no entries. -/
def cacheReady : Cache := { ready := true, entries := [] }

/-- Access token minted for account 1 at time 0 (expires at second 900). -/
def accessTok0 : Jwt := (generateTokens defaultConfig 1 0).1

/-- Available Redis instance holding a blacklist entry for accessTok0. -/
def cacheWithTok : Cache := { ready := true, entries := [(accessTok0, 86400000)] }

/-! Helper lemmas about the store, the stored-token list and the cache. -/

/-- Saving a user whose id is already present makes findById return the
saved record. -/
theorem findById_saveUser (db : List User) (u w : User)
    (hfind : findById db u.id = some u) (hid : w.id = u.id) :
    findById (saveUser db w) u.id = some w := by
  induction db with
  | nil => simp [findById] at hfind
  | cons v rest ih =>
    by_cases h : v.id = u.id
    · have hvw : (if v.id = w.id then w else v) = w := if_pos (by rw [h, hid])
      unfold findById saveUser
      simp only [List.map_cons, hvw]
      exact List.find?_cons_of_pos _ (by simp [hid])
    · have hvw : (if v.id = w.id then w else v) = v := if_neg (by rw [hid]; exact h)
      have hrest : findById rest u.id = some u := by
        unfold findById at hfind
        rwa [List.find?_cons_of_neg _ (by simp [h])] at hfind
      have hres := ih hrest
      unfold findById saveUser at hres ⊢
      simp only [List.map_cons, hvw]
      rw [List.find?_cons_of_neg _ (by simp [h])]
      exact hres

/-- find? over a split list whose earlier part rejects the predicate finds
the distinguished element. -/
theorem find?_split_some {α : Type} (p : α → Bool) (pre post : List α) (s : α)
    (hpre : ∀ x ∈ pre, p x = false) (hs : p s = true) :
    (pre ++ s :: post).find? p = some s := by
  induction pre with
  | nil => simpa using List.find?_cons_of_pos _ hs
  | cons a l ih =>
    simp only [List.cons_append]
    rw [List.find?_cons_of_neg _ (by simp [hpre a (by simp)])]
    exact ih (fun x hx => hpre x (by simp [hx]))

/-- find? over a list all of whose members reject the predicate is none. -/
theorem find?_split_none {α : Type} (p : α → Bool) (l : List α)
    (h : ∀ x ∈ l, p x = false) : l.find? p = none := by
  rw [List.find?_eq_none]
  intro x hx
  simp [h x hx]

/-- updateStoredToken on a split list with the match in the middle rewrites
exactly the matching entry in place. -/
theorem updateStoredToken_split (pre post : List StoredRefreshToken) (s : StoredRefreshToken)
    (t nt : Jwt) (ne2 : Nat)
    (hpre : ∀ x ∈ pre, x.token ≠ t) (hs : s.token = t) :
    updateStoredToken (pre ++ s :: post) t nt ne2 =
      pre ++ { s with token := nt, expiresAt := ne2 } :: post := by
  induction pre with
  | nil => simp [updateStoredToken, hs]
  | cons a l ih =>
    simp only [List.cons_append, updateStoredToken]
    rw [if_neg (hpre a (by simp))]
    simp [ih (fun x hx => hpre x (by simp [hx]))]

/-- Filtering out a key leaves no live entry for it. -/
theorem any_filter_self_false (l : List (Jwt × Nat)) (t : Jwt) (m : Nat) :
    (l.filter (fun e => !decide (e.1 = t))).any
      (fun e => decide (e.1 = t) && decide (m < e.2)) = false := by
  rw [List.any_eq_false]
  intro e he
  have hmem := List.of_mem_filter he
  simp at hmem
  simp [hmem]

/-- Redis SET followed by EXISTS on the same key reads back exactly the
window given by the TTL. -/
theorem cacheExists_cacheSet_self (c : Cache) (t : Jwt) (ttl nowMs m : Nat) :
    cacheExists (cacheSet c t ttl nowMs) t m = decide (m < nowMs + ttl * 1000) := by
  unfold cacheExists cacheSet
  simp only [List.any_cons, any_filter_self_false, Bool.or_false]
  simp

/-! Claim theorems. -/

/-- C4: for every account with passwordChangedAt set, the authenticate gate
rejects with 401 (stale-token path) any access token whose issuedAt is
earlier than passwordChangedAt, even though the token is not blacklisted,
its signature is valid, it is unexpired, the account exists and is not
locked. -/
theorem c4_stale_token_rejected
    (cfg : Config) (db : List User) (c : Cache) (tok : Jwt) (u : User) (ch nowMs : Nat)
    (hbl : isTokenBlacklisted c tok nowMs = false)
    (hsec : tok.secret = cfg.jwtSecret)
    (hexp : nowMs / 1000 < tok.payload.exp)
    (hfind : findById db tok.payload.id = some u)
    (hlock : isAccountLocked nowMs u = false)
    (hch : u.passwordChangedAt = some ch)
    (hstale : tok.payload.iat * 1000 < ch) :
    authenticate cfg db c (some tok) nowMs = .stale
    ∧ (authenticate cfg db c (some tok) nowMs).status = 401 := by
  have h1 : authenticate cfg db c (some tok) nowMs = .stale := by
    simp only [authenticate]
    rw [hbl]
    simp [jwtVerify, hsec, hfind, hlock, staleCheck, hch, hstale, Nat.not_le.mpr hexp]
  exact ⟨h1, by simp [h1, AuthResult.status]⟩

/-- Witness: a token minted at second 0 for an account whose password
changed at 5000 ms is rejected as stale at 100000 ms. -/
theorem c4_stale_token_rejected_witness :
    authenticate defaultConfig [pwChangedUser] cacheReady (some accessTok0) 100000 = .stale
    ∧ (authenticate defaultConfig [pwChangedUser] cacheReady (some accessTok0) 100000).status = 401 :=
  c4_stale_token_rejected defaultConfig [pwChangedUser] cacheReady accessTok0 pwChangedUser 5000 100000
    (by rfl) (by rfl) (by decide) (by rfl) (by rfl) (by rfl) (by decide)

/-- C6: a token present in an available revocation cache is rejected by the
authenticate gate with 401 even though its signature is valid and it is
not expired. -/
theorem c6_blacklisted_rejected
    (cfg : Config) (db : List User) (c : Cache) (tok : Jwt) (nowMs : Nat)
    (hready : c.ready = true)
    (hex : cacheExists c tok nowMs = true)
    (hsec : tok.secret = cfg.jwtSecret)
    (hexp : nowMs / 1000 < tok.payload.exp) :
    authenticate cfg db c (some tok) nowMs = .revoked
    ∧ (authenticate cfg db c (some tok) nowMs).status = 401 := by
  have h1 : authenticate cfg db c (some tok) nowMs = .revoked := by
    simp only [authenticate]
    simp [isTokenBlacklisted, hready, hex]
  exact ⟨h1, by simp [h1, AuthResult.status]⟩

/-- Witness: the blacklisted access token of account 1 is rejected at
1000 ms although it verifies and is unexpired until second 900. -/
theorem c6_blacklisted_rejected_witness :
    authenticate defaultConfig [baseUser] cacheWithTok (some accessTok0) 1000 = .revoked
    ∧ (authenticate defaultConfig [baseUser] cacheWithTok (some accessTok0) 1000).status = 401 :=
  c6_blacklisted_rejected defaultConfig [baseUser] cacheWithTok accessTok0 1000
    (by rfl) (by decide) (by rfl) (by decide)

/-- C9: round-trip: the access token of a freshly issued pair for a valid
account id authenticates as that same id, provided the gate runs before
the token expires and before it is blacklisted (the account existing,
unlocked and without an intervening password change). -/
theorem c9_roundtrip
    (cfg : Config) (db : List User) (c : Cache) (u : User) (uid mintMs nowMs : Nat)
    (hfind : findById db uid = some u)
    (hbl : isTokenBlacklisted c (generateTokens cfg uid mintMs).1 nowMs = false)
    (hexp : nowMs / 1000 < mintMs / 1000 + cfg.jwtExpire)
    (hlock : isAccountLocked nowMs u = false)
    (hstale : staleCheck (mintMs / 1000) u = false) :
    authenticate cfg db c (some (generateTokens cfg uid mintMs).1) nowMs = .success uid := by
  simp only [authenticate]
  rw [hbl]
  simp [generateTokens, jwtSign, jwtVerify, hfind, hlock, hstale, Nat.not_le.mpr hexp]

/-- Witness: the pair minted at time 0 for account 1 authenticates as
account 1 at 1000 ms. -/
theorem c9_roundtrip_witness :
    authenticate defaultConfig [baseUser] cacheReady
      (some (generateTokens defaultConfig 1 0).1) 1000 = .success 1 :=
  c9_roundtrip defaultConfig [baseUser] cacheReady baseUser 1 0 1000
    (by rfl) (by rfl) (by decide) (by rfl) (by rfl)

/-- C1: the failed login that brings the consecutive-failure count to the
configured maximum locks the account with lockUntil = now + lockoutTime
minutes; while locked, every login attempt — whatever password it
presents — answers 423 and leaves the store untouched (the password
comparison is never reached); once lockUntil has passed, a correct-password
login succeeds again (lazy unlock). -/
theorem c1_lockout_lifecycle
    (cfg : Config) (db db2 db3 : List User) (u u2 u3 : User)
    (email email2 email3 badPw pw2 goodPw : String)
    (rm rm2 rm3 : Bool) (now now2 now3 l2 l3 : Nat)
    (hfind : findByEmailForAuth db email = some u)
    (hnl : isAccountLocked now u = false)
    (hbad : comparePassword badPw u = false)
    (hmax : u.loginAttempts + 1 = cfg.maxLoginAttempts)
    (hfind2 : findByEmailForAuth db2 email2 = some u2)
    (hl2 : u2.isLocked = true)
    (hlu2 : u2.lockUntil = some l2)
    (hn2 : now2 < l2)
    (hfind3 : findByEmailForAuth db3 email3 = some u3)
    (hl3 : u3.isLocked = true)
    (hlu3 : u3.lockUntil = some l3)
    (hn3 : l3 ≤ now3)
    (hgood3 : comparePassword goodPw u3 = true) :
    (login cfg db email badPw rm now =
        (.err 401 invalidCredentialsMsg, saveUser db (loginFailedUpdate cfg now u))
      ∧ (loginFailedUpdate cfg now u).isLocked = true
      ∧ (loginFailedUpdate cfg now u).lockUntil = some (now + cfg.lockoutTime * 60 * 1000))
    ∧ login cfg db2 email2 pw2 rm2 now2 = (.err 423 accountLockedMsg, db2)
    ∧ (login cfg db3 email3 goodPw rm3 now3).1 =
        .ok u3.id (generateTokens cfg u3.id now3).1 (generateTokens cfg u3.id now3).2 := by
  refine ⟨⟨?_, ?_, ?_⟩, ?_, ?_⟩
  · simp only [login]
    rw [hfind]
    simp [hnl, hbad]
  · simp [loginFailedUpdate, handleFailedLogin, hmax]
  · simp [loginFailedUpdate, handleFailedLogin, hmax]
  · simp only [login]
    rw [hfind2]
    simp [isAccountLocked, hl2, hlu2, hn2]
  · simp only [login]
    rw [hfind3]
    simp [isAccountLocked, hl3, hlu3, Nat.not_lt.mpr hn3, hgood3]

/-- Witness for C1: with the defaults, the fifth consecutive failure at time
0 locks account 1 until 900000 ms; at 1000 ms even the correct password is
answered 423 with no store change; at 900000 ms the correct password logs
in again. -/
theorem c1_lockout_lifecycle_witness :
    (login defaultConfig [userAtMax4] emailW pwBad false 0 =
        (.err 401 invalidCredentialsMsg, saveUser [userAtMax4] (loginFailedUpdate defaultConfig 0 userAtMax4))
      ∧ (loginFailedUpdate defaultConfig 0 userAtMax4).isLocked = true
      ∧ (loginFailedUpdate defaultConfig 0 userAtMax4).lockUntil = some (0 + defaultConfig.lockoutTime * 60 * 1000))
    ∧ login defaultConfig [lockedUser] emailW pwGood false 1000 = (.err 423 accountLockedMsg, [lockedUser])
    ∧ (login defaultConfig [lockedUser] emailW pwGood false 900000).1 =
        .ok lockedUser.id (generateTokens defaultConfig lockedUser.id 900000).1
          (generateTokens defaultConfig lockedUser.id 900000).2 :=
  c1_lockout_lifecycle defaultConfig [userAtMax4] [lockedUser] [lockedUser]
    userAtMax4 lockedUser lockedUser emailW emailW emailW pwBad pwGood pwGood
    false false false 0 1000 900000 900000 900000
    (by rfl) (by rfl) (by decide) (by rfl)
    (by rfl) (by rfl) (by rfl) (by decide)
    (by rfl) (by rfl) (by rfl) (by decide) (by decide)

/-- C7: the login route answers the identical 401 response, with the same
deliberately generic message, both when no active account matches the
email and when the account exists but the password is wrong, so the two
runs are indistinguishable to the client. -/
theorem c7_enumeration_safe
    (cfg : Config) (db1 db2 : List User) (u2 : User)
    (email1 email2 pw1 pw2 : String) (rm1 rm2 : Bool) (now1 now2 : Nat)
    (h1 : findByEmailForAuth db1 email1 = none)
    (h2 : findByEmailForAuth db2 email2 = some u2)
    (hnl : isAccountLocked now2 u2 = false)
    (hw : comparePassword pw2 u2 = false) :
    (login cfg db1 email1 pw1 rm1 now1).1 = .err 401 invalidCredentialsMsg
    ∧ (login cfg db2 email2 pw2 rm2 now2).1 = .err 401 invalidCredentialsMsg
    ∧ (login cfg db1 email1 pw1 rm1 now1).1 = (login cfg db2 email2 pw2 rm2 now2).1 := by
  have g1 : (login cfg db1 email1 pw1 rm1 now1).1 = .err 401 invalidCredentialsMsg := by
    simp only [login]
    rw [h1]
  have g2 : (login cfg db2 email2 pw2 rm2 now2).1 = .err 401 invalidCredentialsMsg := by
    simp only [login]
    rw [h2]
    simp [hnl, hw]
  exact ⟨g1, g2, by rw [g1, g2]⟩

/-- Witness for C7: a run against an empty store and a run against the
stored account with a wrong password produce the same 401 response. -/
theorem c7_enumeration_safe_witness :
    (login defaultConfig [] emailW pwBad false 0).1 = .err 401 invalidCredentialsMsg
    ∧ (login defaultConfig [baseUser] emailW pwBad false 0).1 = .err 401 invalidCredentialsMsg
    ∧ (login defaultConfig [] emailW pwBad false 0).1 = (login defaultConfig [baseUser] emailW pwBad false 0).1 :=
  c7_enumeration_safe defaultConfig [] [baseUser] baseUser emailW emailW pwBad pwBad
    false false 0 0 (by rfl) (by rfl) (by rfl) (by decide)

/-- C8: a successful login answers with a fresh token pair and persists a
user record whose loginAttempts counter is 0, with the locked flag and
lockUntil cleared, whatever their previous values were. -/
theorem c8_success_resets_lockout
    (cfg : Config) (db : List User) (u : User) (email pw : String) (rm : Bool) (now : Nat)
    (hfind : findByEmailForAuth db email = some u)
    (hnl : isAccountLocked now u = false)
    (hgood : comparePassword pw u = true) :
    (login cfg db email pw rm now).1 =
        .ok u.id (generateTokens cfg u.id now).1 (generateTokens cfg u.id now).2
    ∧ (login cfg db email pw rm now).2 =
        saveUser db (loginSuccessUpdate now rm u (generateTokens cfg u.id now).2)
    ∧ (loginSuccessUpdate now rm u (generateTokens cfg u.id now).2).loginAttempts = 0
    ∧ (loginSuccessUpdate now rm u (generateTokens cfg u.id now).2).isLocked = false
    ∧ (loginSuccessUpdate now rm u (generateTokens cfg u.id now).2).lockUntil = none := by
  refine ⟨?_, ?_, ?_, ?_, ?_⟩
  · simp only [login]
    rw [hfind]
    simp [hnl, hgood]
  · simp only [login]
    rw [hfind]
    simp [hnl, hgood]
  · unfold loginSuccessUpdate handleSuccessfulLogin
    dsimp only
    split_ifs <;> rfl
  · unfold loginSuccessUpdate handleSuccessfulLogin
    dsimp only
    split_ifs <;> rfl
  · unfold loginSuccessUpdate handleSuccessfulLogin
    dsimp only
    split_ifs <;> rfl

/-- Witness for C8: an account with 7 recorded failures and a stale lock
flag (window elapsed at 5 ms) logs in with the correct password at 10 ms
and is persisted with the counter at 0 and the lock cleared. -/
theorem c8_success_resets_lockout_witness :
    (login defaultConfig [staleLockUser] emailW pwGood false 10).1 =
        .ok staleLockUser.id (generateTokens defaultConfig staleLockUser.id 10).1
          (generateTokens defaultConfig staleLockUser.id 10).2
    ∧ (login defaultConfig [staleLockUser] emailW pwGood false 10).2 =
        saveUser [staleLockUser] (loginSuccessUpdate 10 false staleLockUser (generateTokens defaultConfig staleLockUser.id 10).2)
    ∧ (loginSuccessUpdate 10 false staleLockUser (generateTokens defaultConfig staleLockUser.id 10).2).loginAttempts = 0
    ∧ (loginSuccessUpdate 10 false staleLockUser (generateTokens defaultConfig staleLockUser.id 10).2).isLocked = false
    ∧ (loginSuccessUpdate 10 false staleLockUser (generateTokens defaultConfig staleLockUser.id 10).2).lockUntil = none :=
  c8_success_resets_lockout defaultConfig [staleLockUser] staleLockUser emailW pwGood false 10
    (by rfl) (by rfl) (by decide)

/-- Counterexample to C2 as stated: jwt signing is deterministic with
one-second resolution, so a refresh performed in the same signing second
as the presented token's issuance (token minted at 500 ms, refresh at
600 ms) returns the identical refresh token, and a second refresh with
the original token still succeeds. -/
theorem c2_counterexample :
    (refresh defaultConfig [userRt] (some rt0) 600).1 =
      .ok (generateTokens defaultConfig 1 600).1 rt0
    ∧ ((refresh defaultConfig (refresh defaultConfig [userRt] (some rt0) 600).2 (some rt0) 700).1).isOk = true := by
  exact ⟨by decide, by decide⟩

/-- C2 amended: provided the refresh happens at a JWT-clock second
different from the presented token's iat, the refresh operation returns a
refresh token different from the one presented and replaces the stored
record in place, so the second refresh presenting the original token
fails even while that token's signature is still valid. -/
theorem c2_rotation_on_use
    (cfg : Config) (db : List User) (u : User) (t : Jwt)
    (pre post : List StoredRefreshToken) (s : StoredRefreshToken)
    (nowMs nowMs2 : Nat)
    (hsec : t.secret = cfg.jwtRefreshSecret)
    (htyp : t.payload.typ = refreshType)
    (hexp : nowMs / 1000 < t.payload.exp)
    (hid : t.payload.id = u.id)
    (hfind : findById db u.id = some u)
    (hsplit : u.refreshTokens = pre ++ s :: post)
    (hpre : ∀ x ∈ pre, x.token ≠ t)
    (hs : s.token = t)
    (hpost : ∀ x ∈ post, x.token ≠ t)
    (hnotexp : ¬ s.expiresAt < nowMs)
    (hdiff : nowMs / 1000 ≠ t.payload.iat)
    (hexp2 : nowMs2 / 1000 < t.payload.exp) :
    (generateTokens cfg u.id nowMs).2 ≠ t
    ∧ refresh cfg db (some t) nowMs =
        (.ok (generateTokens cfg u.id nowMs).1 (generateTokens cfg u.id nowMs).2,
         saveUser db (rotatedUser cfg u pre post s nowMs))
    ∧ (refresh cfg (refresh cfg db (some t) nowMs).2 (some t) nowMs2).1 = .notStored := by
  have hne : (generateTokens cfg u.id nowMs).2 ≠ t := by
    intro heq
    apply hdiff
    have hiat := congrArg (fun j => j.payload.iat) heq
    simpa [generateTokens, jwtSign] using hiat
  have hfound : u.refreshTokens.find? (fun s2 => decide (s2.token = t)) = some s := by
    rw [hsplit]
    exact find?_split_some _ pre post s (fun x hx => by simp [hpre x hx]) (by simp [hs])
  have hupd : updateStoredToken u.refreshTokens t (generateTokens cfg u.id nowMs).2
      (nowMs + 7 * 24 * 60 * 60 * 1000) =
      pre ++ { s with token := (generateTokens cfg u.id nowMs).2,
                      expiresAt := nowMs + 7 * 24 * 60 * 60 * 1000 } :: post := by
    rw [hsplit]
    exact updateStoredToken_split pre post s t _ _ hpre hs
  have hmain : refresh cfg db (some t) nowMs =
      (.ok (generateTokens cfg u.id nowMs).1 (generateTokens cfg u.id nowMs).2,
       saveUser db (rotatedUser cfg u pre post s nowMs)) := by
    simp only [refresh, verifyRefreshToken]
    simp [jwtVerify, hsec, Nat.not_le.mpr hexp, htyp, hid, hfind, hfound, hnotexp, hupd,
      rotatedUser]
  have hfind2 : findById (saveUser db (rotatedUser cfg u pre post s nowMs)) u.id =
      some (rotatedUser cfg u pre post s nowMs) :=
    findById_saveUser db u _ hfind rfl
  have hnone : (rotatedUser cfg u pre post s nowMs).refreshTokens.find?
      (fun s2 => decide (s2.token = t)) = none := by
    apply find?_split_none
    intro x hx
    simp only [rotatedUser, List.mem_append, List.mem_cons] at hx
    rcases hx with hx | hx | hx
    · simp [hpre x hx]
    · subst hx
      simp only [decide_eq_false_iff_not]
      exact hne
    · simp [hpost x hx]
  refine ⟨hne, hmain, ?_⟩
  rw [hmain]
  simp only [refresh, verifyRefreshToken]
  simp [jwtVerify, hsec, Nat.not_le.mpr hexp2, htyp, hid, hfind2, hnone]

/-- Witness for the amended C2: account 1 holds the refresh token minted at
500 ms (signing second 0); a refresh at 1500 ms (signing second 1) rotates
it, and presenting the original token again at 2500 ms is refused. -/
theorem c2_rotation_on_use_witness :
    (generateTokens defaultConfig userRt.id 1500).2 ≠ rt0
    ∧ refresh defaultConfig [userRt] (some rt0) 1500 =
        (.ok (generateTokens defaultConfig userRt.id 1500).1 (generateTokens defaultConfig userRt.id 1500).2,
         saveUser [userRt] (rotatedUser defaultConfig userRt [] [] ⟨rt0, 604800000⟩ 1500))
    ∧ (refresh defaultConfig (refresh defaultConfig [userRt] (some rt0) 1500).2 (some rt0) 2500).1 = .notStored :=
  c2_rotation_on_use defaultConfig [userRt] userRt rt0 [] [] ⟨rt0, 604800000⟩ 1500 2500
    (by rfl) (by rfl) (by decide) (by rfl) (by rfl) (by rfl)
    (by simp) (by rfl) (by simp) (by decide) (by decide) (by decide)

/-- Counterexample to C3 as stated: logout blacklists the access token with
the default 24-hour TTL, not its remaining lifetime; the token minted at
time 0 expires at second 900, yet at 10000000 ms (second 10000) the
blacklist entry is still live while the token itself is already expired. -/
theorem c3_counterexample :
    isTokenBlacklisted (logout cacheReady [baseUser] baseUser accessTok0 none false 0).1 accessTok0 10000000 = true
    ∧ jwtVerify accessTok0 defaultConfig.jwtSecret 10000000 = .error .expired := by
  exact ⟨by decide, rfl⟩

/-- C3 amended: on logout and on password change the access token is
blacklisted with the fixed default TTL of 86400 seconds, regardless of the
token's remaining lifetime, so the blacklist entry is live exactly until
now + 86400 s and can outlive the token it blocks. -/
theorem c3_blacklist_fixed_ttl
    (c : Cache) (db : List User) (u : User) (tok : Jwt) (rt : Option Jwt)
    (la : Bool) (cur newP : String) (nowMs m : Nat)
    (hready : c.ready = true)
    (hcur : comparePassword cur u = true) :
    isTokenBlacklisted (logout c db u tok rt la nowMs).1 tok m
      = decide (m < nowMs + blacklistDefaultTtl * 1000)
    ∧ isTokenBlacklisted (changePassword db c u tok cur newP nowMs).2.2 tok m
      = decide (m < nowMs + blacklistDefaultTtl * 1000) := by
  constructor
  · have h1 : (logout c db u tok rt la nowMs).1 = cacheSet c tok blacklistDefaultTtl nowMs := by
      simp [logout, blacklistToken, hready]
    rw [h1]
    unfold isTokenBlacklisted
    rw [if_pos (show (cacheSet c tok blacklistDefaultTtl nowMs).ready = true from hready)]
    exact cacheExists_cacheSet_self c tok blacklistDefaultTtl nowMs m
  · have h2 : (changePassword db c u tok cur newP nowMs).2.2 = cacheSet c tok blacklistDefaultTtl nowMs := by
      simp [changePassword, hcur, blacklistToken, hready]
    rw [h2]
    unfold isTokenBlacklisted
    rw [if_pos (show (cacheSet c tok blacklistDefaultTtl nowMs).ready = true from hready)]
    exact cacheExists_cacheSet_self c tok blacklistDefaultTtl nowMs m

/-- Witness for the amended C3: blacklisting at time 0 keeps the entry live
at 5 ms, and the window is exactly the default 86400 s in both the logout
and the change-password flow. -/
theorem c3_blacklist_fixed_ttl_witness :
    isTokenBlacklisted (logout cacheReady [baseUser] baseUser accessTok0 none false 0).1 accessTok0 5
      = decide ((5 : Nat) < 0 + blacklistDefaultTtl * 1000)
    ∧ isTokenBlacklisted (changePassword [baseUser] cacheReady baseUser accessTok0 pwGood pwNew 0).2.2 accessTok0 5
      = decide ((5 : Nat) < 0 + blacklistDefaultTtl * 1000) :=
  c3_blacklist_fixed_ttl cacheReady [baseUser] baseUser accessTok0 none false pwGood pwNew 0 5
    (by rfl) (by decide)

/-- C5: changing the password with the correct current password clears the
whole stored refresh-token set and sets passwordChangedAt to now, so any
subsequent refresh presenting a refresh token of this account fails and
leaves the store unchanged. -/
theorem c5_change_password_invalidates_refresh
    (cfg : Config) (db : List User) (c : Cache) (u : User) (tok t2 : Jwt)
    (currentPw newPw : String) (nowMs m2 : Nat)
    (hcur : comparePassword currentPw u = true)
    (hfind : findById db u.id = some u)
    (hid2 : t2.payload.id = u.id) :
    (changePassword db c u tok currentPw newPw nowMs).1 = .ok
    ∧ (changePassword db c u tok currentPw newPw nowMs).2.1 =
        saveUser db (changePasswordUpdate u newPw nowMs)
    ∧ (changePasswordUpdate u newPw nowMs).passwordChangedAt = some nowMs
    ∧ (changePasswordUpdate u newPw nowMs).refreshTokens = []
    ∧ ((refresh cfg (changePassword db c u tok currentPw newPw nowMs).2.1 (some t2) m2).1).isOk = false
    ∧ (refresh cfg (changePassword db c u tok currentPw newPw nowMs).2.1 (some t2) m2).2 =
        (changePassword db c u tok currentPw newPw nowMs).2.1 := by
  have hres : (changePassword db c u tok currentPw newPw nowMs).2.1 =
      saveUser db (changePasswordUpdate u newPw nowMs) := by
    simp [changePassword, hcur]
  have hfind2 : findById (saveUser db (changePasswordUpdate u newPw nowMs)) u.id =
      some (changePasswordUpdate u newPw nowMs) :=
    findById_saveUser db u _ hfind rfl
  have hempty : (changePasswordUpdate u newPw nowMs).refreshTokens = [] := rfl
  have hfail : ((refresh cfg (saveUser db (changePasswordUpdate u newPw nowMs)) (some t2) m2).1).isOk = false
      ∧ (refresh cfg (saveUser db (changePasswordUpdate u newPw nowMs)) (some t2) m2).2 =
        saveUser db (changePasswordUpdate u newPw nowMs) := by
    cases hv : jwtVerify t2 cfg.jwtRefreshSecret m2 with
    | error e =>
      constructor <;> simp [refresh, verifyRefreshToken, hv, RefreshResult.isOk]
    | ok p =>
      have hp : p = t2.payload := by
        unfold jwtVerify at hv
        split_ifs at hv <;> cases hv <;> rfl
      by_cases ht : p.typ = refreshType
      · have hfp : findById (saveUser db (changePasswordUpdate u newPw nowMs)) p.id =
            some (changePasswordUpdate u newPw nowMs) := by
          rw [hp, hid2]
          exact hfind2
        constructor <;>
          simp [refresh, verifyRefreshToken, hv, ht, hfp, hempty, RefreshResult.isOk]
      · constructor <;> simp [refresh, verifyRefreshToken, hv, ht, RefreshResult.isOk]
  refine ⟨by simp [changePassword, hcur], hres, rfl, rfl, ?_, ?_⟩
  · rw [hres]
    exact hfail.1
  · rw [hres]
    exact hfail.2

/-- Witness for C5: account 1, holding the refresh token minted at 500 ms,
changes its password at 3000 ms; the stored set is cleared, and the old
refresh token is refused at 5000 ms. -/
theorem c5_change_password_invalidates_refresh_witness :
    (changePassword [userRt] cacheReady userRt accessTok0 pwGood pwNew 3000).1 = .ok
    ∧ (changePassword [userRt] cacheReady userRt accessTok0 pwGood pwNew 3000).2.1 =
        saveUser [userRt] (changePasswordUpdate userRt pwNew 3000)
    ∧ (changePasswordUpdate userRt pwNew 3000).passwordChangedAt = some 3000
    ∧ (changePasswordUpdate userRt pwNew 3000).refreshTokens = []
    ∧ ((refresh defaultConfig (changePassword [userRt] cacheReady userRt accessTok0 pwGood pwNew 3000).2.1 (some rt0) 5000).1).isOk = false
    ∧ (refresh defaultConfig (changePassword [userRt] cacheReady userRt accessTok0 pwGood pwNew 3000).2.1 (some rt0) 5000).2 =
        (changePassword [userRt] cacheReady userRt accessTok0 pwGood pwNew 3000).2.1 :=
  c5_change_password_invalidates_refresh defaultConfig [userRt] cacheReady userRt accessTok0 rt0
    pwGood pwNew 3000 5000 (by decide) (by rfl) (by rfl)

/-- C10 (implicit): neither refresh-token verification nor the refresh
route consults the lockout state or the isActive flag, so an account that
is currently locked or deactivated still obtains a fresh token pair by
presenting one of its stored, unexpired refresh tokens. -/
theorem c10_refresh_ignores_lock_and_active
    (cfg : Config) (db : List User) (u : User) (t : Jwt) (s : StoredRefreshToken)
    (nowMs l : Nat)
    (hstate : (u.isLocked = true ∧ u.lockUntil = some l ∧ nowMs < l) ∨ u.isActive = false)
    (hsec : t.secret = cfg.jwtRefreshSecret)
    (htyp : t.payload.typ = refreshType)
    (hexp : nowMs / 1000 < t.payload.exp)
    (hid : t.payload.id = u.id)
    (hfind : findById db u.id = some u)
    (hstored : u.refreshTokens.find? (fun s2 => decide (s2.token = t)) = some s)
    (hnotexp : ¬ s.expiresAt < nowMs) :
    (refresh cfg db (some t) nowMs).1 =
      .ok (generateTokens cfg u.id nowMs).1 (generateTokens cfg u.id nowMs).2 := by
  simp only [refresh, verifyRefreshToken]
  simp [jwtVerify, hsec, Nat.not_le.mpr hexp, htyp, hid, hfind, hstored, hnotexp]

/-- Witness for C10: the account locked until 999999999 ms and marked
inactive still refreshes successfully at 600 ms with its stored token. -/
theorem c10_refresh_ignores_lock_and_active_witness :
    (refresh defaultConfig [lockedInactiveUser] (some rt0) 600).1 =
      .ok (generateTokens defaultConfig lockedInactiveUser.id 600).1
        (generateTokens defaultConfig lockedInactiveUser.id 600).2 :=
  c10_refresh_ignores_lock_and_active defaultConfig [lockedInactiveUser] lockedInactiveUser rt0
    ⟨rt0, 604800000⟩ 600 999999999
    (Or.inl ⟨rfl, rfl, by decide⟩)
    (by rfl) (by rfl) (by decide) (by rfl) (by rfl) (by rfl) (by decide)

end AmarBin
